import Mathlib

/-!
Verification of the `ydt` dictionary-lookup tool (fetcher + HTML extractor).

The development shallowly embeds the Rust sources:
  * `src/lib.rs`  — the library: CJK classification, fetch-with-fallback,
    selector caching, and `parse_translation_from_html`;
  * `src/main.rs` — an older, string-error duplicate of the same logic.

Network I/O is modelled by an oracle `send : UserAgent → Except SendError Response`
standing for `send_with_ua`; the HTML parser of the external `scraper` crate is
modelled by taking the already-parsed DOM forest (`List Node`) as input, since
the repository's own code operates on the parsed tree via CSS selectors.
-/

deriving instance DecidableEq for Except

namespace Ydt

/-- An HTTP response as the fetch layer observes it: numeric status and body text. -/
structure Response where
  status : Nat
  body : String
deriving DecidableEq, Repr

/-- Errors `send_with_ua` can produce (`build_client`, `Url::parse_with_params`,
`send`); the payload `Nat` stands for the opaque underlying library error. -/
inductive SendError where
  | createHttpClient : Nat → SendError
  | buildRequestUrl : Nat → SendError
  | fetchTranslation : Nat → SendError
deriving DecidableEq, Repr

/-- The `YdtError` enum of `src/lib.rs`; opaque library-error payloads become `Nat`. -/
inductive YdtError where
  | CreateHttpClient : Nat → YdtError
  | BuildRequestUrl : Nat → YdtError
  | FetchTranslation : Nat → YdtError
  | HttpStatus : Nat → YdtError
  | ReadResponse : Nat → YdtError
  | ParseCssSelector : String → YdtError
deriving DecidableEq, Repr

/-- Embed a `send_with_ua` error into `YdtError` (in the source the constructors
are applied directly by `send_with_ua`). -/
def SendError.toYdtError : SendError → YdtError
  | .createHttpClient e => .CreateHttpClient e
  | .buildRequestUrl e => .BuildRequestUrl e
  | .fetchTranslation e => .FetchTranslation e

/-- The two client-identity strings of the source: `PROJECT_USER_AGENT` and
`BROWSER_USER_AGENT`. -/
inductive UserAgent where
  | project : UserAgent
  | browser : UserAgent
deriving DecidableEq, Repr

/-- `StatusCode::is_success` of reqwest: status in `200..=299`. -/
def isSuccessStatus (s : Nat) : Bool :=
  200 ≤ s && s ≤ 299

/-- `ensure_success_response` of `src/lib.rs`. -/
def ensure_success_response (resp : Response) : Except YdtError Response :=
  if isSuccessStatus resp.status then Except.ok resp
  else Except.error (YdtError.HttpStatus resp.status)

/-- `fetch_with_fallback` of `src/lib.rs`, over a send oracle.  The second
component records, in order, the identity string of every `send_with_ua`
invocation performed (the attempt trace). -/
def fetch_with_fallback (send : UserAgent → Except SendError Response) :
    Except YdtError Response × List UserAgent :=
  match send UserAgent.project with
  | Except.ok resp =>
    if resp.status == 403 || resp.status == 429 then
      match send UserAgent.browser with
      | Except.ok fallback_resp =>
        (ensure_success_response fallback_resp, [UserAgent.project, UserAgent.browser])
      | Except.error e =>
        (Except.error e.toYdtError, [UserAgent.project, UserAgent.browser])
    else
      (ensure_success_response resp, [UserAgent.project])
  | Except.error _ =>
    match send UserAgent.browser with
    | Except.ok fallback_resp =>
      (ensure_success_response fallback_resp, [UserAgent.project, UserAgent.browser])
    | Except.error e =>
      (Except.error e.toYdtError, [UserAgent.project, UserAgent.browser])

/-- The per-character test of `contains_cjk_ideograph` in `src/lib.rs`
(the ten closed scalar ranges of the source, in source order). -/
def isCjkIdeographChar (ch : Char) : Bool :=
  (0x3400 ≤ ch.toNat && ch.toNat ≤ 0x4DBF) ||
  (0x4E00 ≤ ch.toNat && ch.toNat ≤ 0x9FFF) ||
  (0xF900 ≤ ch.toNat && ch.toNat ≤ 0xFAFF) ||
  (0x20000 ≤ ch.toNat && ch.toNat ≤ 0x2A6DF) ||
  (0x2A700 ≤ ch.toNat && ch.toNat ≤ 0x2B73F) ||
  (0x2B740 ≤ ch.toNat && ch.toNat ≤ 0x2B81F) ||
  (0x2B820 ≤ ch.toNat && ch.toNat ≤ 0x2CEAF) ||
  (0x2CEB0 ≤ ch.toNat && ch.toNat ≤ 0x2EBEF) ||
  (0x30000 ≤ ch.toNat && ch.toNat ≤ 0x3134F) ||
  (0x31350 ≤ ch.toNat && ch.toNat ≤ 0x323AF)

/-- `contains_cjk_ideograph` of `src/lib.rs`: `text.chars().any(..)`. -/
def contains_cjk_ideograph (text : String) : Bool :=
  text.toList.any isCjkIdeographChar

/-- A node of the DOM tree produced by `Html::parse_document`: a text node, or
an element with tag name, class list, and children in document order. -/
inductive Node where
  | text : String → Node
  | elem : String → List String → List Node → Node
deriving Repr

mutual

/-- `ElementRef::text().collect::<String>()` of scraper: concatenation of all
text-node contents below (and at) the node, in document order. -/
def Node.textContent : Node → String
  | Node.text s => s
  | Node.elem _ _ children => textContentList children

/-- Text content of a forest, left to right. -/
def textContentList : List Node → String
  | [] => ""
  | n :: rest => Node.textContent n ++ textContentList rest

end

/-- A compiled CSS selector of the shape the source uses: a tag name plus a
(possibly empty) set of required classes, e.g. `li.word-exp-ce.mcols-layout`. -/
structure SimpleSelector where
  tag : String
  classes : List String
deriving DecidableEq, Repr

/-- Whether an element with the given tag and classes matches the selector. -/
def matchesSel (sel : SimpleSelector) (tag : String) (classes : List String) : Bool :=
  sel.tag == tag && sel.classes.all (fun c => classes.contains c)

mutual

/-- All elements in the subtree rooted at a node (the node included) that match
the selector, in document (preorder) order — the traversal `Html::select` and
`ElementRef::select` perform. -/
def selectNode (sel : SimpleSelector) : Node → List Node
  | Node.text _ => []
  | Node.elem tag classes children =>
    (if matchesSel sel tag classes then [Node.elem tag classes children] else []) ++
      selectForest sel children

/-- All matching elements of a forest, in document order.  Applied to the root
forest this is `document.select(sel)` of scraper. -/
def selectForest (sel : SimpleSelector) : List Node → List Node
  | [] => []
  | n :: rest => selectNode sel n ++ selectForest sel rest

end

/-- `element.select(sel)` of scraper: matching strict descendants of the
element, in document order (the element itself is skipped). -/
def selectDesc (sel : SimpleSelector) : Node → List Node
  | Node.text _ => []
  | Node.elem _ _ children => selectForest sel children

/-- A character with the Unicode `White_Space` property, the set Rust's
`str::trim` strips. -/
def isRustWhitespace (c : Char) : Bool :=
  c == ' ' || c == '\t' || c == '\n' || c == '\r' ||
  c.toNat == 0x0B || c.toNat == 0x0C || c.toNat == 0x85 || c.toNat == 0xA0 ||
  c.toNat == 0x1680 || (0x2000 ≤ c.toNat && c.toNat ≤ 0x200A) ||
  c.toNat == 0x2028 || c.toNat == 0x2029 || c.toNat == 0x202F ||
  c.toNat == 0x205F || c.toNat == 0x3000

/-- Drop leading whitespace characters. -/
def dropLeadingWs : List Char → List Char
  | [] => []
  | c :: rest => if isRustWhitespace c then dropLeadingWs rest else c :: rest

/-- `str::trim` of Rust: the string with leading and trailing whitespace removed. -/
def rustTrim (s : String) : String :=
  String.mk ((dropLeadingWs (dropLeadingWs s.toList.reverse).reverse))

/-- Split a character list at `'.'` separators (the shape `Selector::parse`
sees for the source's compound selectors). -/
def splitOnDot : List Char → List Char → List (List Char)
  | [], acc => [acc.reverse]
  | c :: rest, acc =>
    if c == '.' then acc.reverse :: splitOnDot rest []
    else splitOnDot rest (c :: acc)

/-- A CSS identifier as the modelled selector grammar accepts it: nonempty,
alphanumeric plus `-` and `_`. -/
def identOk (s : List Char) : Bool :=
  !s.isEmpty && s.all (fun c => c.isAlphanum || c == '-' || c == '_')

/-- Model of `Selector::parse` on the fragment of CSS the source uses:
`tag(.class)*`.  Returns `none` (compilation failure) when the string is not of
that well-formed shape. -/
def parseSelector (css : String) : Option SimpleSelector :=
  match splitOnDot css.toList [] with
  | [] => none
  | tag :: classes =>
    if identOk tag && classes.all identOk then
      some ⟨String.mk tag, classes.map String.mk⟩
    else none

/-- The initialization closure of `cached_selector`:
`Selector::parse(css).map_err(|_| YdtError::ParseCssSelector(css))`, over an
explicit parse function. -/
def selectorInitOutcome (parseFn : String → Option SimpleSelector) (css : String) :
    Except YdtError SimpleSelector :=
  match parseFn css with
  | some s => Except.ok s
  | none => Except.error (YdtError.ParseCssSelector css)

/-- `cached_selector` of `src/lib.rs` with the `OnceLock` cell passed as
explicit state (`none` = uninitialized).  Returns the call's result and the
cell's state after the call; `get_or_init` runs the initialization closure only
when the cell is empty. -/
def cached_selector (parseFn : String → Option SimpleSelector)
    (cache : Option (Except YdtError SimpleSelector)) (css : String) :
    Except YdtError SimpleSelector × Option (Except YdtError SimpleSelector) :=
  let stored := match cache with
    | some r => r
    | none => selectorInitOutcome parseFn css
  match stored with
  | Except.ok s => (Except.ok s, some stored)
  | Except.error _ => (Except.error (YdtError.ParseCssSelector css), some stored)

/-- Compiling one of the built-in selector strings, as the first (and hence
every) `cached_selector` call observes it. -/
def compileSel (css : String) : Except YdtError SimpleSelector :=
  selectorInitOutcome parseSelector css

/-- The nine built-in selector strings of `src/lib.rs`, in source order. -/
def builtinSelectors : List String :=
  ["li.word-exp-ce.mcols-layout", "a.point", "div.trans-container", "div.per-phone",
   "span", "span.phonetic", "li.word-exp", "span.pos", "span.trans"]

/-- Compiled `"li.word-exp-ce.mcols-layout"`. -/
def wordExpCeSel : SimpleSelector := ⟨"li", ["word-exp-ce", "mcols-layout"]⟩

/-- Compiled `"a.point"`. -/
def pointSel : SimpleSelector := ⟨"a", ["point"]⟩

/-- Compiled `"div.trans-container"`. -/
def transContainerSel : SimpleSelector := ⟨"div", ["trans-container"]⟩

/-- Compiled `"div.per-phone"`. -/
def phoneSel : SimpleSelector := ⟨"div", ["per-phone"]⟩

/-- Compiled `"span"`. -/
def spanSel : SimpleSelector := ⟨"span", []⟩

/-- Compiled `"span.phonetic"`. -/
def phoneticSel : SimpleSelector := ⟨"span", ["phonetic"]⟩

/-- Compiled `"li.word-exp"`. -/
def wordExpSel : SimpleSelector := ⟨"li", ["word-exp"]⟩

/-- Compiled `"span.pos"`. -/
def posSel : SimpleSelector := ⟨"span", ["pos"]⟩

/-- Compiled `"span.trans"`. -/
def transSel : SimpleSelector := ⟨"span", ["trans"]⟩

/-- The CJK-branch loop of `parse_translation_from_html`: for each element
matching the word-expression selector, if it has a first descendant matching
the point selector, push that descendant's flattened text. -/
def pointTexts (word_exp_selector point_selector : SimpleSelector) (doc : List Node) :
    List String :=
  (selectForest word_exp_selector doc).filterMap
    (fun exp => ((selectDesc point_selector exp).head?).map Node.textContent)

/-- The body of the phonetics loop of `parse_translation_from_html`: from one
`per-phone` block, the entry `"<label> <phonetic>"` built from the first `span`
descendant and the first `span.phonetic` descendant, both trimmed; `none` when
either is missing. -/
def perPhoneEntry (span_selector phonetic_selector : SimpleSelector) (phone_div : Node) :
    Option String :=
  match (selectDesc span_selector phone_div).head? with
  | none => none
  | some label =>
    match (selectDesc phonetic_selector phone_div).head? with
    | none => none
    | some phonetic =>
      some (rustTrim (Node.textContent label) ++ " " ++ rustTrim (Node.textContent phonetic))

/-- The phonetics paragraph of the non-CJK branch: the container at position 0
of the matched container list supplies the entries; no container, no entries. -/
def phoneticsOfContainers (phone_selector span_selector phonetic_selector : SimpleSelector)
    (containers : List Node) : List String :=
  match containers[0]? with
  | none => []
  | some container =>
    (selectDesc phone_selector container).filterMap
      (perPhoneEntry span_selector phonetic_selector)

/-- The body of the translations loop of the non-CJK branch: from one
`word-exp` element, the entry `"<pos>: <trans>"` built from the first `span.pos`
and first `span.trans` descendants, both trimmed; `none` when either is missing. -/
def wordExpEntry (pos_selector trans_selector : SimpleSelector) (exp : Node) :
    Option String :=
  match (selectDesc pos_selector exp).head?, (selectDesc trans_selector exp).head? with
  | some pos, some tr =>
    some (rustTrim (Node.textContent pos) ++ ": " ++ rustTrim (Node.textContent tr))
  | _, _ => none

/-- The translations paragraph of the non-CJK branch: the container at position
1 of the matched container list supplies the entries; no container, no entries. -/
def translationsOfContainers (word_exp_selector pos_selector trans_selector : SimpleSelector)
    (containers : List Node) : List String :=
  match containers[1]? with
  | none => []
  | some container =>
    (selectDesc word_exp_selector container).filterMap
      (wordExpEntry pos_selector trans_selector)

/-- Final assembly of `parse_translation_from_html` (and, identically, of
`main.rs`): `"No results."` when both lists are empty, otherwise the joined
strings with the source's empty-string checks, in the source's order. -/
def assembleOutput (phonetics translations : List String) : String :=
  if phonetics.isEmpty && translations.isEmpty then "No results."
  else
    let phonetics_str := String.intercalate " " phonetics
    let translations_str := String.intercalate "\n" translations
    if phonetics_str == "" then translations_str
    else if translations_str == "" then phonetics_str
    else phonetics_str ++ "\n" ++ translations_str

/-- `parse_translation_from_html` of `src/lib.rs`, over the parsed DOM forest.
Selector compilation failures propagate exactly as the `?` operator does; the
cached compilation outcome of a constant string is deterministic, so the cache
cell is dropped and each selector is compiled in place. -/
def parse_translation_from_html (word : String) (doc : List Node) :
    Except YdtError String :=
  if contains_cjk_ideograph word then
    match compileSel "li.word-exp-ce.mcols-layout" with
    | Except.error e => Except.error e
    | Except.ok word_exp_selector =>
      match compileSel "a.point" with
      | Except.error e => Except.error e
      | Except.ok point_selector =>
        Except.ok (assembleOutput [] (pointTexts word_exp_selector point_selector doc))
  else
    match compileSel "div.trans-container" with
    | Except.error e => Except.error e
    | Except.ok trans_container_selector =>
      match compileSel "div.per-phone" with
      | Except.error e => Except.error e
      | Except.ok phone_selector =>
        match compileSel "span" with
        | Except.error e => Except.error e
        | Except.ok span_selector =>
          match compileSel "span.phonetic" with
          | Except.error e => Except.error e
          | Except.ok phonetic_selector =>
            match compileSel "li.word-exp" with
            | Except.error e => Except.error e
            | Except.ok word_exp_selector =>
              match compileSel "span.pos" with
              | Except.error e => Except.error e
              | Except.ok pos_selector =>
                match compileSel "span.trans" with
                | Except.error e => Except.error e
                | Except.ok trans_selector =>
                  let containers := selectForest trans_container_selector doc
                  Except.ok (assembleOutput
                    (phoneticsOfContainers phone_selector span_selector phonetic_selector
                      containers)
                    (translationsOfContainers word_exp_selector pos_selector trans_selector
                      containers))

/-- Strategy A's translation list with the source's constant selectors. -/
def strategyA_translations (doc : List Node) : List String :=
  pointTexts wordExpCeSel pointSel doc

/-- Strategy B's phonetics list with the source's constant selectors. -/
def strategyB_phonetics (doc : List Node) : List String :=
  phoneticsOfContainers phoneSel spanSel phoneticSel (selectForest transContainerSel doc)

/-- Strategy B's translations list with the source's constant selectors. -/
def strategyB_translations (doc : List Node) : List String :=
  translationsOfContainers wordExpSel posSel transSel (selectForest transContainerSel doc)

/-- The `phonetics` vector of `parse_translation_from_html` just before final
assembly (empty on the CJK branch). -/
def phoneticsList (word : String) (doc : List Node) : List String :=
  if contains_cjk_ideograph word then [] else strategyB_phonetics doc

/-- The `translations` vector of `parse_translation_from_html` just before
final assembly. -/
def translationsList (word : String) (doc : List Node) : List String :=
  if contains_cjk_ideograph word then strategyA_translations doc
  else strategyB_translations doc

namespace MainRs

/-- `cached_selector` of `src/main.rs` as the parse portion of
`get_translation` observes it: the compilation outcome of a constant string,
with the string error message of `main.rs`. -/
def mainCompileSel (css : String) : Except String SimpleSelector :=
  match parseSelector css with
  | some s => Except.ok s
  | none => Except.error ("Failed to parse CSS selector: " ++ css)

/-- The string-output block at the end of `get_translation` in `src/main.rs`
(textually the same logic as the library's final assembly). -/
def renderOutput (phonetics translations : List String) : String :=
  if phonetics.isEmpty && translations.isEmpty then "No results."
  else
    let phonetics_str := String.intercalate " " phonetics
    let translations_str := String.intercalate "\n" translations
    if phonetics_str == "" then translations_str
    else if translations_str == "" then phonetics_str
    else phonetics_str ++ "\n" ++ translations_str

/-- The parsing portion of `get_translation` in `src/main.rs` (everything after
the HTML body has been obtained), over the parsed DOM forest.  Selector
failures return their error message string directly, as the
`match .. { Err(err) => return err }` arms do. -/
def get_translation_parse (word : String) (doc : List Node) : String :=
  if contains_cjk_ideograph word then
    match mainCompileSel "li.word-exp-ce.mcols-layout" with
    | Except.error err => err
    | Except.ok word_exp_selector =>
      match mainCompileSel "a.point" with
      | Except.error err => err
      | Except.ok point_selector =>
        renderOutput [] (pointTexts word_exp_selector point_selector doc)
  else
    match mainCompileSel "div.trans-container" with
    | Except.error err => err
    | Except.ok trans_container_selector =>
      match mainCompileSel "div.per-phone" with
      | Except.error err => err
      | Except.ok phone_selector =>
        match mainCompileSel "span" with
        | Except.error err => err
        | Except.ok span_selector =>
          match mainCompileSel "span.phonetic" with
          | Except.error err => err
          | Except.ok phonetic_selector =>
            match mainCompileSel "li.word-exp" with
            | Except.error err => err
            | Except.ok word_exp_selector =>
              match mainCompileSel "span.pos" with
              | Except.error err => err
              | Except.ok pos_selector =>
                match mainCompileSel "span.trans" with
                | Except.error err => err
                | Except.ok trans_selector =>
                  let containers := selectForest trans_container_selector doc
                  renderOutput
                    (phoneticsOfContainers phone_selector span_selector phonetic_selector
                      containers)
                    (translationsOfContainers word_exp_selector pos_selector trans_selector
                      containers)

end MainRs

/-- Modelled from the claim wording of C1 for comparison: a character in the
CJK ranges Basic, Extension A, Compatibility Ideographs, or Extensions B
through G only (Extension H, `0x31350..=0x323AF`, excluded). -/
def claimCjkChar (ch : Char) : Bool :=
  (0x3400 ≤ ch.toNat && ch.toNat ≤ 0x4DBF) ||
  (0x4E00 ≤ ch.toNat && ch.toNat ≤ 0x9FFF) ||
  (0xF900 ≤ ch.toNat && ch.toNat ≤ 0xFAFF) ||
  (0x20000 ≤ ch.toNat && ch.toNat ≤ 0x2A6DF) ||
  (0x2A700 ≤ ch.toNat && ch.toNat ≤ 0x2B73F) ||
  (0x2B740 ≤ ch.toNat && ch.toNat ≤ 0x2B81F) ||
  (0x2B820 ≤ ch.toNat && ch.toNat ≤ 0x2CEAF) ||
  (0x2CEB0 ≤ ch.toNat && ch.toNat ≤ 0x2EBEF) ||
  (0x30000 ≤ ch.toNat && ch.toNat ≤ 0x3134F)

/-- Modelled from the claim wording of C1: a word is CJK when some character
lies in the ranges Basic, Ext A, Compatibility, or Extensions B through G. -/
def claimContainsCjk (text : String) : Bool :=
  text.toList.any claimCjkChar

/-- Modelled from the claim wording of C4 for comparison: final assembly with
the "exactly one of the two joined strings is empty" reading. -/
def claimAssembleOutput (phonetics translations : List String) : String :=
  if phonetics.isEmpty && translations.isEmpty then "No results."
  else
    let phonetics_str := String.intercalate " " phonetics
    let translations_str := String.intercalate "\n" translations
    if phonetics_str == "" && !(translations_str == "") then translations_str
    else if translations_str == "" && !(phonetics_str == "") then phonetics_str
    else phonetics_str ++ "\n" ++ translations_str

/-- The first `span` element among the direct children of a node (`none` for a
text node or when no child is a `span`). -/
def firstSpanChild (n : Node) : Option Node :=
  match n with
  | Node.text _ => none
  | Node.elem _ _ children =>
    children.find? (fun child =>
      match child with
      | Node.elem tag _ _ => tag == "span"
      | Node.text _ => false)

/-- Modelled from the claim wording of C6 for comparison: the per-phone entry
with the label taken from the block's first generic inline-text CHILD (rather
than descendant). -/
def claimPerPhoneEntry (phone_div : Node) : Option String :=
  match firstSpanChild phone_div with
  | none => none
  | some label =>
    match (selectDesc phoneticSel phone_div).head? with
    | none => none
    | some phonetic =>
      some (rustTrim (Node.textContent label) ++ " " ++ rustTrim (Node.textContent phonetic))

/-- Modelled from the claim wording of C6: strategy B's phonetics list with
child-based labels. -/
def claimStrategyB_phonetics (doc : List Node) : List String :=
  match (selectForest transContainerSel doc)[0]? with
  | none => []
  | some container => (selectDesc phoneSel container).filterMap claimPerPhoneEntry

/-! ### Concrete inputs used by witnesses and counterexamples -/

/-- A send oracle whose first attempt is answered `403 Forbidden` and whose
browser-identity retry succeeds. -/
def sendFirst403 : UserAgent → Except SendError Response
  | UserAgent.project => Except.ok ⟨403, "blocked"⟩
  | UserAgent.browser => Except.ok ⟨200, "fallback body"⟩

/-- A send oracle whose first attempt is answered `404 Not Found`. -/
def sendFirst404 : UserAgent → Except SendError Response
  | UserAgent.project => Except.ok ⟨404, "missing"⟩
  | UserAgent.browser => Except.ok ⟨200, "unused"⟩

/-- A send oracle whose first attempt fails at client construction and whose
browser-identity retry succeeds. -/
def sendClientErrFirst : UserAgent → Except SendError Response
  | UserAgent.project => Except.error (SendError.createHttpClient 7)
  | UserAgent.browser => Except.ok ⟨200, "fallback body"⟩

/-- A send oracle whose attempts both fail (first at URL construction, retry at
transport level). -/
def sendBothFail : UserAgent → Except SendError Response
  | UserAgent.project => Except.error (SendError.buildRequestUrl 3)
  | UserAgent.browser => Except.error (SendError.fetchTranslation 9)

/-- The Chinese-word conformance document of `tests/translation_parser.rs`:
two CJK-pattern list items with anchor texts `"study"` and `"learn"`. -/
def studyLearnDoc : List Node :=
  [Node.elem "li" ["word-exp-ce", "mcols-layout"] [Node.elem "a" ["point"] [Node.text "study"]],
   Node.elem "li" ["word-exp-ce", "mcols-layout"] [Node.elem "a" ["point"] [Node.text "learn"]]]

/-- The English-word conformance document of `tests/translation_parser.rs`:
a phonetics container and a translations container. -/
def engDoc : List Node :=
  [Node.elem "div" ["trans-container"]
    [Node.elem "div" ["per-phone"]
      [Node.elem "span" [] [Node.text "英"],
       Node.elem "span" ["phonetic"] [Node.text "/həˈləʊ/"]]],
   Node.elem "div" ["trans-container"]
    [Node.elem "li" ["word-exp"]
      [Node.elem "span" ["pos"] [Node.text "int."],
       Node.elem "span" ["trans"] [Node.text "你好"]]]]

/-- A document holding only a phonetics container (no second container). -/
def phonOnlyDoc : List Node :=
  [Node.elem "div" ["trans-container"]
    [Node.elem "div" ["per-phone"]
      [Node.elem "span" [] [Node.text "英"],
       Node.elem "span" ["phonetic"] [Node.text "/həˈləʊ/"]]]]

/-- A word whose only character is `U+31350`, the first CJK Extension H
ideograph. -/
def extHWord : String := String.mk [Char.ofNat 0x31350]

/-- One CJK-pattern list item with anchor text `"study"`. -/
def studyDoc : List Node :=
  [Node.elem "li" ["word-exp-ce", "mcols-layout"] [Node.elem "a" ["point"] [Node.text "study"]]]

/-- One CJK-pattern list item whose anchor has no text at all. -/
def emptyAnchorDoc : List Node :=
  [Node.elem "li" ["word-exp-ce", "mcols-layout"] [Node.elem "a" ["point"] []]]

/-- A per-phone block whose `span`s are all nested below a `b` element, so it
has span descendants but no span child. -/
def nestedSpanBlock : Node :=
  Node.elem "div" ["per-phone"]
    [Node.elem "b" []
      [Node.elem "span" [] [Node.text "A"],
       Node.elem "span" ["phonetic"] [Node.text "B"]]]

/-- A document holding one phonetics container whose only per-phone block is
`nestedSpanBlock`. -/
def nestedSpanDoc : List Node :=
  [Node.elem "div" ["trans-container"] [nestedSpanBlock]]

/-! ### Helper lemmas -/

/-- `"li.word-exp-ce.mcols-layout"` compiles to its selector. -/
theorem compileSel_wordExpCe :
    compileSel "li.word-exp-ce.mcols-layout" = Except.ok wordExpCeSel := rfl

/-- `"a.point"` compiles to its selector. -/
theorem compileSel_point : compileSel "a.point" = Except.ok pointSel := rfl

/-- `"div.trans-container"` compiles to its selector. -/
theorem compileSel_transContainer :
    compileSel "div.trans-container" = Except.ok transContainerSel := rfl

/-- `"div.per-phone"` compiles to its selector. -/
theorem compileSel_phone : compileSel "div.per-phone" = Except.ok phoneSel := rfl

/-- `"span"` compiles to its selector. -/
theorem compileSel_span : compileSel "span" = Except.ok spanSel := rfl

/-- `"span.phonetic"` compiles to its selector. -/
theorem compileSel_phonetic : compileSel "span.phonetic" = Except.ok phoneticSel := rfl

/-- `"li.word-exp"` compiles to its selector. -/
theorem compileSel_wordExp : compileSel "li.word-exp" = Except.ok wordExpSel := rfl

/-- `"span.pos"` compiles to its selector. -/
theorem compileSel_pos : compileSel "span.pos" = Except.ok posSel := rfl

/-- `"span.trans"` compiles to its selector. -/
theorem compileSel_trans : compileSel "span.trans" = Except.ok transSel := rfl

/-- In `main.rs` the nine selector strings compile to the same selectors, with
the string error type; each fact is by computation. -/
theorem mainCompileSel_eval :
    MainRs.mainCompileSel "li.word-exp-ce.mcols-layout" = Except.ok wordExpCeSel ∧
    MainRs.mainCompileSel "a.point" = Except.ok pointSel ∧
    MainRs.mainCompileSel "div.trans-container" = Except.ok transContainerSel ∧
    MainRs.mainCompileSel "div.per-phone" = Except.ok phoneSel ∧
    MainRs.mainCompileSel "span" = Except.ok spanSel ∧
    MainRs.mainCompileSel "span.phonetic" = Except.ok phoneticSel ∧
    MainRs.mainCompileSel "li.word-exp" = Except.ok wordExpSel ∧
    MainRs.mainCompileSel "span.pos" = Except.ok posSel ∧
    MainRs.mainCompileSel "span.trans" = Except.ok transSel :=
  ⟨rfl, rfl, rfl, rfl, rfl, rfl, rfl, rfl, rfl⟩

/-- The output block of `main.rs` is the same function as the library's final
assembly. -/
theorem renderOutput_eq_assembleOutput : MainRs.renderOutput = assembleOutput := rfl

/-- Since every built-in selector compiles, `parse_translation_from_html`
always reaches final assembly: it returns `Ok` of the assembled output of the
two result vectors. -/
theorem parse_eq_assemble (word : String) (doc : List Node) :
    parse_translation_from_html word doc =
      Except.ok (assembleOutput (phoneticsList word doc) (translationsList word doc)) := by
  unfold parse_translation_from_html phoneticsList translationsList
  cases h : contains_cjk_ideograph word
  · simp [h, compileSel_transContainer, compileSel_phone, compileSel_span,
      compileSel_phonetic, compileSel_wordExp, compileSel_pos, compileSel_trans,
      strategyB_phonetics, strategyB_translations]
  · simp [h, compileSel_wordExpCe, compileSel_point, strategyA_translations]

/-! ### Claim theorems -/

/-- Claim C2: when the first attempt (project identity) returns HTTP 403 or
429, the fetch performs exactly one retry with the browser identity and
validates the retry's status (2xx returns the retry response, non-2xx fails
with that status); when the first attempt returns any other non-2xx status the
fetch fails immediately with that status, performing no retry. -/
theorem fetch_403_429_retry_other_non2xx_fails_fast
    (send : UserAgent → Except SendError Response) (resp : Response)
    (hfirst : send UserAgent.project = Except.ok resp) :
    ((resp.status = 403 ∨ resp.status = 429) →
      (fetch_with_fallback send).2 = [UserAgent.project, UserAgent.browser] ∧
      ∀ fb : Response, send UserAgent.browser = Except.ok fb →
        (fetch_with_fallback send).1 =
          (if isSuccessStatus fb.status then Except.ok fb
           else Except.error (YdtError.HttpStatus fb.status))) ∧
    (resp.status ≠ 403 → resp.status ≠ 429 → isSuccessStatus resp.status = false →
      (fetch_with_fallback send).1 = Except.error (YdtError.HttpStatus resp.status) ∧
      (fetch_with_fallback send).2 = [UserAgent.project]) := by
  constructor
  · intro hs
    have hcond : (resp.status == 403 || resp.status == 429) = true := by
      rcases hs with h | h <;> simp [h]
    constructor
    · cases hsend : send UserAgent.browser <;>
        simp [fetch_with_fallback, hfirst, hcond, hsend]
    · intro fb hfb
      simp [fetch_with_fallback, hfirst, hcond, hfb, ensure_success_response]
  · intro h1 h2 h3
    have hcond : (resp.status == 403 || resp.status == 429) = false := by
      simp [h1, h2]
    simp [fetch_with_fallback, hfirst, hcond, ensure_success_response, h3]

/-- Witness for C2: a 403 first response retries and returns the fallback
response; a 404 first response fails immediately with no retry. -/
theorem fetch_403_429_retry_other_non2xx_fails_fast_witness :
    ((fetch_with_fallback sendFirst403).1 = Except.ok ⟨200, "fallback body"⟩ ∧
     (fetch_with_fallback sendFirst403).2 = [UserAgent.project, UserAgent.browser]) ∧
    ((fetch_with_fallback sendFirst404).1 = Except.error (YdtError.HttpStatus 404) ∧
     (fetch_with_fallback sendFirst404).2 = [UserAgent.project]) := by
  have h403 := fetch_403_429_retry_other_non2xx_fails_fast sendFirst403 ⟨403, "blocked"⟩ rfl
  have h404 := fetch_403_429_retry_other_non2xx_fails_fast sendFirst404 ⟨404, "missing"⟩ rfl
  have ha := h403.1 (Or.inl rfl)
  have hb := h404.2 (by decide) (by decide) (by decide)
  refine ⟨⟨?_, ha.1⟩, hb.1, hb.2⟩
  have := ha.2 ⟨200, "fallback body"⟩ rfl
  simpa [isSuccessStatus] using this

/-- Counterexample for C3: a client-construction failure on the first attempt
is not surfaced immediately — the code performs the browser-identity fallback
attempt and returns its successful response. -/
theorem fetch_error_path_counterexample :
    sendClientErrFirst UserAgent.project =
      Except.error (SendError.createHttpClient 7) ∧
    (fetch_with_fallback sendClientErrFirst).2 =
      [UserAgent.project, UserAgent.browser] ∧
    ([UserAgent.project, UserAgent.browser] : List UserAgent) ≠ [UserAgent.project] ∧
    (fetch_with_fallback sendClientErrFirst).1 = Except.ok ⟨200, "fallback body"⟩ ∧
    (fetch_with_fallback sendClientErrFirst).1 ≠
      Except.error (YdtError.CreateHttpClient 7) := by decide

/-- Claim C3 (amended): the identity-fallback retry on the error path is
triggered by ANY failure of the first attempt — client-construction,
URL-construction, or transport — and when the retry also fails, the surfaced
error is the retry's underlying error; when the retry succeeds, its status is
validated as usual. -/
theorem fetch_error_path_amended
    (send : UserAgent → Except SendError Response) (e : SendError)
    (hfirst : send UserAgent.project = Except.error e) :
    (fetch_with_fallback send).2 = [UserAgent.project, UserAgent.browser] ∧
    (∀ e2 : SendError, send UserAgent.browser = Except.error e2 →
      (fetch_with_fallback send).1 = Except.error e2.toYdtError) ∧
    (∀ fb : Response, send UserAgent.browser = Except.ok fb →
      (fetch_with_fallback send).1 =
        (if isSuccessStatus fb.status then Except.ok fb
         else Except.error (YdtError.HttpStatus fb.status))) := by
  refine ⟨?_, ?_, ?_⟩
  · cases hsend : send UserAgent.browser <;>
      simp [fetch_with_fallback, hfirst, hsend]
  · intro e2 hsend
    simp [fetch_with_fallback, hfirst, hsend]
  · intro fb hsend
    simp [fetch_with_fallback, hfirst, hsend, ensure_success_response]

/-- Witness for the amended C3: a failed first attempt always yields the
two-attempt trace; with a failing retry the retry's error is surfaced, with a
successful retry the validated retry response is returned. -/
theorem fetch_error_path_amended_witness :
    (fetch_with_fallback sendBothFail).2 = [UserAgent.project, UserAgent.browser] ∧
    (fetch_with_fallback sendBothFail).1 =
      Except.error (YdtError.FetchTranslation 9) ∧
    (fetch_with_fallback sendClientErrFirst).1 = Except.ok ⟨200, "fallback body"⟩ := by
  have h1 := fetch_error_path_amended sendBothFail (SendError.buildRequestUrl 3) rfl
  have h2 := fetch_error_path_amended sendClientErrFirst (SendError.createHttpClient 7) rfl
  refine ⟨h1.1, h1.2.1 (SendError.fetchTranslation 9) rfl, ?_⟩
  have := h2.2.2 ⟨200, "fallback body"⟩ rfl
  simpa [isSuccessStatus] using this

/-- Claim C9: the `OnceLock` cache makes selector compilation happen at most
once — the first call stores the compilation outcome, every later call returns
the stored outcome with the cache unchanged and independently of the compile
function (no recompilation), and a stored failure is returned as the
`ParseCssSelector` error to every later caller. -/
theorem cached_selector_compiles_at_most_once
    (p1 p2 : String → Option SimpleSelector) (css : String)
    (r : Except YdtError SimpleSelector) :
    (cached_selector p1 none css).2 = some (selectorInitOutcome p1 css) ∧
    cached_selector p1 (some r) css = cached_selector p2 (some r) css ∧
    (cached_selector p1 (some r) css).2 = some r ∧
    (∀ e : YdtError, r = Except.error e →
      (cached_selector p1 (some r) css).1 =
        Except.error (YdtError.ParseCssSelector css)) := by
  refine ⟨?_, ?_, ?_, ?_⟩
  · cases h : selectorInitOutcome p1 css <;> simp [cached_selector, h]
  · rfl
  · cases r <;> simp [cached_selector]
  · intro e he
    subst he
    simp [cached_selector]

/-- Witness for C9: on `"span"` the first call stores the successful
compilation; with a stored failure, calls under any compile function agree and
return the cached `ParseCssSelector` error. -/
theorem cached_selector_compiles_at_most_once_witness :
    (cached_selector parseSelector none "span").2 = some (Except.ok spanSel) ∧
    cached_selector parseSelector
        (some (Except.error (YdtError.ParseCssSelector "span"))) "span" =
      cached_selector (fun _ => none)
        (some (Except.error (YdtError.ParseCssSelector "span"))) "span" ∧
    (cached_selector parseSelector
        (some (Except.error (YdtError.ParseCssSelector "span"))) "span").1 =
      Except.error (YdtError.ParseCssSelector "span") := by
  have h := cached_selector_compiles_at_most_once parseSelector (fun _ => none) "span"
    (Except.error (YdtError.ParseCssSelector "span"))
  exact ⟨h.1, h.2.1, h.2.2.2 (YdtError.ParseCssSelector "span") rfl⟩

/-- Counterexample for C1: the code's classifier also covers CJK Extension H
(`U+31350..U+323AF`), which the claim's range list (Basic, Ext A,
Compatibility, Extensions B through G) omits.  For a word consisting of the
Extension H ideograph `U+31350` the claim mandates Strategy B, but the code
takes Strategy A and extracts `"study"` where Strategy B would have produced
`"No results."`. -/
theorem strategy_choice_counterexample :
    claimContainsCjk extHWord = false ∧
    contains_cjk_ideograph extHWord = true ∧
    parse_translation_from_html extHWord studyDoc = Except.ok "study" ∧
    assembleOutput (strategyB_phonetics studyDoc) (strategyB_translations studyDoc) =
      "No results." ∧
    ("study" : String) ≠ "No results." := by decide

/-- Claim C1 (amended): extraction uses Strategy A exactly when the word
contains a character in a CJK Unified Ideograph range — Basic, Extension A,
Compatibility Ideographs, or Extensions B through H — and Strategy B
otherwise; the classification is a pure function of the word's codepoints and
is independent of the HTML input. -/
theorem strategy_choice_amended (word : String) (doc : List Node) :
    parse_translation_from_html word doc =
      (if contains_cjk_ideograph word
       then Except.ok (assembleOutput [] (strategyA_translations doc))
       else Except.ok (assembleOutput (strategyB_phonetics doc)
         (strategyB_translations doc))) ∧
    (contains_cjk_ideograph word = true ↔
      ∃ ch ∈ word.toList, isCjkIdeographChar ch = true) := by
  constructor
  · rw [parse_eq_assemble]
    unfold phoneticsList translationsList
    cases h : contains_cjk_ideograph word <;> simp [h]
  · simp [contains_cjk_ideograph, List.any_eq_true]

/-- Counterexample for C4: for a CJK word whose only matched anchor has empty
text, the translations list is `[""]` (not empty) while both joined strings
are empty; neither of the claim's cases ("both lists empty", "exactly one
joined string empty") applies, so the claim mandates the output `"\n"`, but
the code returns the empty translations string. -/
theorem assembly_counterexample :
    phoneticsList "学" emptyAnchorDoc = [] ∧
    translationsList "学" emptyAnchorDoc = [""] ∧
    parse_translation_from_html "学" emptyAnchorDoc = Except.ok "" ∧
    claimAssembleOutput (phoneticsList "学" emptyAnchorDoc)
      (translationsList "学" emptyAnchorDoc) = "\n" ∧
    ("" : String) ≠ "\n" := by decide

/-- Claim C4 (amended): if both result lists are empty the output is exactly
`"No results."`; otherwise phonetics are joined with a space and translations
with newline, and the checks are sequential on the joined strings: an empty
phonetics string returns the translations string verbatim (even when that is
also empty), else an empty translations string returns the phonetics string
verbatim, else the output is phonetics line, newline, translations block. -/
theorem assembly_amended (word : String) (doc : List Node) :
    parse_translation_from_html word doc =
      Except.ok (assembleOutput (phoneticsList word doc) (translationsList word doc)) ∧
    (∀ phonetics translations : List String,
      (phonetics = [] → translations = [] →
        assembleOutput phonetics translations = "No results.") ∧
      (¬(phonetics = [] ∧ translations = []) →
        (String.intercalate " " phonetics = "" →
          assembleOutput phonetics translations =
            String.intercalate "\n" translations) ∧
        (String.intercalate " " phonetics ≠ "" →
          String.intercalate "\n" translations = "" →
            assembleOutput phonetics translations =
              String.intercalate " " phonetics) ∧
        (String.intercalate " " phonetics ≠ "" →
          String.intercalate "\n" translations ≠ "" →
            assembleOutput phonetics translations =
              String.intercalate " " phonetics ++ "\n" ++
                String.intercalate "\n" translations))) := by
  refine ⟨parse_eq_assemble word doc, ?_⟩
  intro phonetics translations
  constructor
  · intro h1 h2
    simp [assembleOutput, h1, h2]
  · intro hne
    have hlists : (phonetics.isEmpty && translations.isEmpty) = false := by
      rcases Decidable.em (phonetics = []) with h1 | h1
      · rcases Decidable.em (translations = []) with h2 | h2
        · exact absurd ⟨h1, h2⟩ hne
        · simp [h2]
      · simp [h1]
    refine ⟨?_, ?_, ?_⟩
    · intro hp
      simp [assembleOutput, hlists, hp]
    · intro hp ht
      simp [assembleOutput, hlists, hp, ht]
    · intro hp ht
      simp [assembleOutput, hlists, hp, ht]

/-- Witness for the amended C4: a phonetics-only document yields the phonetics
line verbatim with no trailing newline, and empty lists yield
`"No results."`. -/
theorem assembly_amended_witness :
    parse_translation_from_html "hello" phonOnlyDoc = Except.ok "英 /həˈləʊ/" ∧
    assembleOutput [] [] = "No results." := by
  refine ⟨?_, ((assembly_amended "hello" phonOnlyDoc).2 [] []).1 rfl rfl⟩
  rw [(assembly_amended "hello" phonOnlyDoc).1]
  decide

/-- Claim C5: for a non-CJK word, the container list is consumed strictly by
document-order position — position 0 supplies phonetics, position 1 supplies
translations — and a missing container leaves the corresponding list empty
with no error (the parse still returns `Ok`). -/
theorem positional_container_contract (word : String) (doc : List Node)
    (h : contains_cjk_ideograph word = false) :
    parse_translation_from_html word doc =
      Except.ok (assembleOutput (strategyB_phonetics doc) (strategyB_translations doc)) ∧
    strategyB_phonetics doc =
      (match (selectForest transContainerSel doc)[0]? with
       | none => []
       | some container =>
         (selectDesc phoneSel container).filterMap (perPhoneEntry spanSel phoneticSel)) ∧
    strategyB_translations doc =
      (match (selectForest transContainerSel doc)[1]? with
       | none => []
       | some container =>
         (selectDesc wordExpSel container).filterMap (wordExpEntry posSel transSel)) ∧
    ((selectForest transContainerSel doc)[0]? = none → strategyB_phonetics doc = []) ∧
    ((selectForest transContainerSel doc)[1]? = none → strategyB_translations doc = []) := by
  refine ⟨?_, rfl, rfl, ?_, ?_⟩
  · rw [parse_eq_assemble]
    simp [phoneticsList, translationsList, h]
  · intro h0
    simp [strategyB_phonetics, phoneticsOfContainers, h0]
  · intro h1
    simp [strategyB_translations, translationsOfContainers, h1]

/-- Witness for C5: with only a phonetics container present, the second
position is vacant, the translations list stays empty, no error occurs, and
the output is the phonetics line alone. -/
theorem positional_container_contract_witness :
    parse_translation_from_html "hello" phonOnlyDoc = Except.ok "英 /həˈləʊ/" ∧
    strategyB_translations phonOnlyDoc = [] := by
  have h := positional_container_contract "hello" phonOnlyDoc (by decide)
  refine ⟨?_, h.2.2.2.2 rfl⟩
  rw [h.1]
  decide

/-- Counterexample for C6: a per-phone block whose spans sit below an
intervening `b` element has no generic inline-text CHILD, so the claim says
the block is skipped and (nothing else matching) the result is
`"No results."`; the code takes the first span DESCENDANT as the label and
produces the entry `"A B"`. -/
theorem per_phone_label_counterexample :
    firstSpanChild nestedSpanBlock = none ∧
    claimPerPhoneEntry nestedSpanBlock = none ∧
    claimStrategyB_phonetics nestedSpanDoc = [] ∧
    assembleOutput (claimStrategyB_phonetics nestedSpanDoc) [] = "No results." ∧
    strategyB_phonetics nestedSpanDoc = ["A B"] ∧
    parse_translation_from_html "hello" nestedSpanDoc = Except.ok "A B" ∧
    ("A B" : String) ≠ "No results." := by
  refine ⟨rfl, rfl, rfl, rfl, rfl, rfl, by decide⟩

/-- Claim C6 (amended): each per-phone block inside the first translation
container contributes `"<label> <phonetic>"` — label the trimmed text of its
first generic inline-text DESCENDANT, phonetic the trimmed text of its first
phonetic-pattern descendant — exactly when both pieces are present; a block
missing either piece is silently skipped. -/
theorem per_phone_entries_amended (doc : List Node) (container : Node)
    (h : (selectForest transContainerSel doc)[0]? = some container) :
    strategyB_phonetics doc =
      (selectDesc phoneSel container).filterMap (perPhoneEntry spanSel phoneticSel) ∧
    (∀ blk : Node,
      ((selectDesc spanSel blk).head? = none ∨
       (selectDesc phoneticSel blk).head? = none) →
        perPhoneEntry spanSel phoneticSel blk = none) ∧
    (∀ blk label phonetic : Node,
      (selectDesc spanSel blk).head? = some label →
      (selectDesc phoneticSel blk).head? = some phonetic →
        perPhoneEntry spanSel phoneticSel blk =
          some (rustTrim (Node.textContent label) ++ " " ++
            rustTrim (Node.textContent phonetic))) := by
  refine ⟨?_, ?_, ?_⟩
  · simp [strategyB_phonetics, phoneticsOfContainers, h]
  · intro blk hmiss
    rcases hmiss with hm | hm
    · simp [perPhoneEntry, hm]
    · cases hspan : (selectDesc spanSel blk).head? <;>
        simp [perPhoneEntry, hspan, hm]
  · intro blk label phonetic hl hp
    simp [perPhoneEntry, hl, hp]

/-- Witness for the amended C6: in the phonetics-only document, the per-phone
block with both pieces contributes `"英 /həˈləʊ/"`, and a block with no span
descendant contributes nothing. -/
theorem per_phone_entries_amended_witness :
    strategyB_phonetics phonOnlyDoc = ["英 /həˈləʊ/"] ∧
    perPhoneEntry spanSel phoneticSel (Node.elem "div" ["per-phone"] []) = none := by
  have h := per_phone_entries_amended phonOnlyDoc
    (Node.elem "div" ["trans-container"]
      [Node.elem "div" ["per-phone"]
        [Node.elem "span" [] [Node.text "英"],
         Node.elem "span" ["phonetic"] [Node.text "/həˈləʊ/"]]]) rfl
  refine ⟨?_, h.2.1 (Node.elem "div" ["per-phone"] []) (Or.inl rfl)⟩
  rw [h.1]
  decide

/-- Claim C7: every built-in selector string compiles, so the only error
branch of `parse_translation_from_html` is unreachable and the function
returns `Ok` on every (word, document) input — malformed or unexpected HTML
only shrinks the result lists, it never produces an error. -/
theorem parse_never_errors :
    builtinSelectors.all (fun css => (parseSelector css).isSome) = true ∧
    ∀ (word : String) (doc : List Node), ∃ out : String,
      parse_translation_from_html word doc = Except.ok out :=
  ⟨by decide, fun word doc => ⟨_, parse_eq_assemble word doc⟩⟩

/-- Claim C8: for a CJK query word, the translations list is the flattened
text of the first anchor-point descendant of each word-expression
Chinese-English multi-column list item, in document order, and the phonetics
list stays empty. -/
theorem cjk_strategy_anchor_texts (word : String) (doc : List Node)
    (h : contains_cjk_ideograph word = true) :
    parse_translation_from_html word doc =
      Except.ok (assembleOutput []
        ((selectForest wordExpCeSel doc).filterMap
          (fun exp => ((selectDesc pointSel exp).head?).map Node.textContent))) ∧
    phoneticsList word doc = [] := by
  constructor
  · rw [parse_eq_assemble]
    simp [phoneticsList, translationsList, h, strategyA_translations, pointTexts]
  · simp [phoneticsList, h]

/-- Witness for C8: the word `"学习"` on the two-item study/learn document
yields exactly `"study\nlearn"`. -/
theorem cjk_strategy_anchor_texts_witness :
    contains_cjk_ideograph "学习" = true ∧
    parse_translation_from_html "学习" studyLearnDoc = Except.ok "study\nlearn" := by
  refine ⟨by decide, ?_⟩
  rw [(cjk_strategy_anchor_texts "学习" studyLearnDoc (by decide)).1]
  decide

/-- Claim C10: the string-based extraction logic duplicated in `main.rs`'s
`get_translation` produces, for every (word, document) pair, exactly the
display string the library's `parse_translation_from_html` wraps in `Ok`. -/
theorem lib_main_extraction_equivalent (word : String) (doc : List Node) :
    parse_translation_from_html word doc =
      Except.ok (MainRs.get_translation_parse word doc) := by
  rw [parse_eq_assemble]
  unfold MainRs.get_translation_parse phoneticsList translationsList
  obtain ⟨e1, e2, e3, e4, e5, e6, e7, e8, e9⟩ := mainCompileSel_eval
  cases h : contains_cjk_ideograph word
  · simp [h, e3, e4, e5, e6, e7, e8, e9, renderOutput_eq_assembleOutput,
      strategyB_phonetics, strategyB_translations]
  · simp [h, e1, e2, renderOutput_eq_assembleOutput, strategyA_translations]

end Ydt
